import Mathlib

/-!
Shallow embedding of the LoanLink server's application-lifecycle and
payment-settlement handlers (Express + MongoDB + Stripe).  Each handler is
translated into a pure Lean function on an explicit store; MongoDB's
`updateOne` / `deleteOne` (update or delete the first matching document)
become `updateFirst` / `deleteFirst` on lists, timestamps (`new Date()`)
become an explicit `now : Nat` parameter, and the Stripe session retrieved
in the settlement callback is an explicit `StripeSession` argument.
-/

namespace LoanLink

/-- A document of the `applications` collection.  Fields written by the
handlers are explicit; fields not yet set are `Option`/`none`
(a MongoDB document simply lacks them until a `$set` adds them). -/
structure Application where
  id : String
  userEmail : String
  status : String
  applicationFeeStatus : String
  appliedAt : Nat
  approvedAt : Option Nat := none
  rejectedAt : Option Nat := none
  cancelledAt : Option Nat := none
  paidAt : Option Nat := none
  trackingId : Option String := none
  transactionId : Option String := none
  paymentStatus : Option String := none
  deriving Repr, DecidableEq

/-- A document of the `payments` collection, exactly the `paymentHistory`
object built in the `PATCH /payment-success` handler. -/
structure PaymentRecord where
  applicationId : String
  loanTitle : String
  amount : ℚ
  currency : String
  customerEmail : String
  transactionId : String
  paymentStatus : String
  trackingId : String
  paidAt : Nat
  createdAt : Nat
  deriving Repr, DecidableEq

/-- The two collections the core handlers touch. -/
structure DB where
  applications : List Application
  payments : List PaymentRecord
  deriving Repr, DecidableEq

/-- The fields of the Stripe checkout session that `PATCH /payment-success`
reads after `stripe.checkout.sessions.retrieve`. -/
structure StripeSession where
  payment_intent : String
  payment_status : String
  amount_total : ℤ
  currency : String
  customer_email : String
  metadata_loanId : String
  metadata_loanTitle : String
  deriving Repr, DecidableEq

/-- Result object of a MongoDB `updateOne`, reduced to the field the
handlers expose (`matchedCount`). -/
structure UpdateResult where
  matchedCount : Nat
  deriving Repr, DecidableEq

/-- Result object of a MongoDB `deleteOne`. -/
structure DeleteResult where
  deletedCount : Nat
  deriving Repr, DecidableEq

/-- An Express response: either a JSON body sent with a success status, or
an error status with a message. -/
inductive HttpResponse (α : Type) where
  | ok (body : α)
  | error (statusCode : Nat) (message : String)
  deriving Repr, DecidableEq

/-- MongoDB `updateOne`: apply `f` to the first element matching `p`,
returning the matched count (0 or 1) and the new list. -/
def updateFirst (p : α → Bool) (f : α → α) : List α → Nat × List α
  | [] => (0, [])
  | x :: xs =>
    if p x then (1, f x :: xs)
    else
      let r := updateFirst p f xs
      (r.1, x :: r.2)

/-- MongoDB `deleteOne`: remove the first element matching `p`, returning
the deleted count (0 or 1) and the new list. -/
def deleteFirst (p : α → Bool) : List α → Nat × List α
  | [] => (0, [])
  | x :: xs =>
    if p x then (1, xs)
    else
      let r := deleteFirst p xs
      (r.1, x :: r.2)

/-! ## Application lifecycle handlers (part_000 lines 371-463) -/

/-- `POST /applications`: spread the request body, then override
`status`, `applicationFeeStatus` and `appliedAt`, and insert.  Returns the
inserted document and the new collection. -/
def postApplications (apps : List Application) (body : Application) (now : Nat) :
    Application × List Application :=
  let data := { body with
    status := "Pending"
    applicationFeeStatus := "Unpaid"
    appliedAt := now }
  (data, apps ++ [data])

/-- `PATCH /applications/approve/:id`: `updateOne` setting
status=Approved, applicationFeeStatus=Paid, approvedAt=now; the raw Mongo
result is sent back with status 200 whether or not anything matched. -/
def approveApplication (apps : List Application) (id : String) (now : Nat) :
    HttpResponse UpdateResult × List Application :=
  let r := updateFirst (fun a => a.id == id)
    (fun a => { a with
      status := "Approved"
      applicationFeeStatus := "Paid"
      approvedAt := some now }) apps
  (.ok ⟨r.1⟩, r.2)

/-- `PATCH /applications/reject/:id`: `updateOne` setting status=Rejected,
rejectedAt=now. -/
def rejectApplication (apps : List Application) (id : String) (now : Nat) :
    HttpResponse UpdateResult × List Application :=
  let r := updateFirst (fun a => a.id == id)
    (fun a => { a with status := "Rejected", rejectedAt := some now }) apps
  (.ok ⟨r.1⟩, r.2)

/-- `DELETE /applications/cancel/:id` (part_000 lines 454-463): a hard
`deleteOne` keyed only on the id.  The verified caller email
(`decodedEmail` from the token middleware) is available but never
consulted. -/
def cancelApplicationDelete (decodedEmail : String) (apps : List Application)
    (id : String) : HttpResponse DeleteResult × List Application :=
  let r := deleteFirst (fun a => a.id == id) apps
  (.ok ⟨r.1⟩, r.2)

/-- `PATCH /applications/cancel/:id` (zzzzz.jsx lines 255-261): the
`updateOne` variant setting status=Cancelled, cancelledAt=now; again the
caller email is never consulted. -/
def cancelApplicationUpdate (decodedEmail : String) (apps : List Application)
    (id : String) (now : Nat) : HttpResponse UpdateResult × List Application :=
  let r := updateFirst (fun a => a.id == id)
    (fun a => { a with status := "Cancelled", cancelledAt := some now }) apps
  (.ok ⟨r.1⟩, r.2)

/-! ## Checkout-session creation (part_000 lines 483-529) -/

/-- JavaScript `parseInt` applied to a numeric value: truncation toward
zero of its decimal representation. -/
def jsParseIntTrunc (q : ℚ) : ℤ :=
  if 0 ≤ q then ⌊q⌋ else -⌊-q⌋

/-- The `unit_amount` sent to the processor:
`parseInt(loanAmount) * 100` (part_000 line 491). -/
def checkoutMinorUnits (loanAmount : ℚ) : ℤ :=
  jsParseIntTrunc loanAmount * 100

/-- `session.amount_total / 100` — the decimal amount recorded in the
ledger at settlement (part_000 line 591). -/
def settleMajorUnits (amountTotal : ℤ) : ℚ :=
  (amountTotal : ℚ) / 100

/-- The session-creation request the handler passes to
`stripe.checkout.sessions.create`. -/
structure CheckoutSessionRequest where
  currency : String
  unit_amount : ℤ
  productName : String
  customer_email : String
  metadata_loanId : String
  metadata_userEmail : String
  metadata_loanTitle : String
  deriving Repr, DecidableEq

/-- Outcome of `POST /payment-checkout-system` before the external call:
either a session request forwarded to the processor, or a local
validation rejection.  The latter constructor exists so that the spec's
claimed `ValidationError` outcome is statable; the source has no such
branch. -/
inductive CheckoutResult where
  | sessionRequest (r : CheckoutSessionRequest)
  | validationError
  deriving Repr, DecidableEq

/-- `POST /payment-checkout-system`: computes `parseInt(loanAmount)*100`
and unconditionally builds the processor session request; no local
validation of the amount is performed. -/
def paymentCheckoutSystem (loanId loanTitle : String) (loanAmount : ℚ)
    (userEmail : String) : CheckoutResult :=
  let amount := checkoutMinorUnits loanAmount
  .sessionRequest {
    currency := "usd"
    unit_amount := amount
    productName := "Loan Application Fee - " ++ loanTitle
    customer_email := userEmail
    metadata_loanId := loanId
    metadata_userEmail := userEmail
    metadata_loanTitle := loanTitle }

/-! ## Payment settlement (part_000 lines 533-616) -/

/-- Response body of `PATCH /payment-success`. -/
inductive SettleResponse where
  | missingSessionId
  | alreadyProcessed (transactionId trackingId : String)
  | paymentNotCompleted
  | success (transactionId trackingId : String) (matchedCount : Nat)
  deriving Repr, DecidableEq

/-- The transactionId carried in a settlement response, when any. -/
def SettleResponse.returnedTransactionId : SettleResponse → Option String
  | .alreadyProcessed t _ => some t
  | .success t _ _ => some t
  | _ => none

/-- The trackingId carried in a settlement response, when any. -/
def SettleResponse.returnedTrackingId : SettleResponse → Option String
  | .alreadyProcessed _ t => some t
  | .success _ t _ => some t
  | _ => none

/-- The `paymentHistory` document inserted by the settlement handler
(part_000 lines 588-599); `metadata.loanTitle || "Loan Application Fee"`
reads the fallback when the metadata string is falsy (empty). -/
def settledPaymentRecord (session : StripeSession) (trackingId : String)
    (now : Nat) : PaymentRecord :=
  { applicationId := session.metadata_loanId
    loanTitle := if session.metadata_loanTitle = "" then "Loan Application Fee"
      else session.metadata_loanTitle
    amount := settleMajorUnits session.amount_total
    currency := session.currency
    customerEmail := session.customer_email
    transactionId := session.payment_intent
    paymentStatus := session.payment_status
    trackingId := trackingId
    paidAt := now
    createdAt := now }

/-- The `$set` document applied to the referenced application at
settlement (part_000 lines 576-584). -/
def paidApplicationSet (trackingId transactionId : String) (now : Nat)
    (a : Application) : Application :=
  { a with
    applicationFeeStatus := "Paid"
    paymentStatus := some "Paid"
    trackingId := some trackingId
    transactionId := some transactionId
    paidAt := some now }

/-- `PATCH /payment-success` after session retrieval: duplicate-payment
check by transaction reference, then payment-status check, then the
application `updateOne` and the ledger insert.  `freshTrackingId` stands
for the random `generateTrackingId()` draw. -/
def paymentSuccess (db : DB) (session : StripeSession) (freshTrackingId : String)
    (now : Nat) : SettleResponse × DB :=
  let transactionId := session.payment_intent
  match db.payments.find? (fun p => p.transactionId == transactionId) with
  | some existingPayment =>
    (.alreadyProcessed transactionId existingPayment.trackingId, db)
  | none =>
    let trackingId := freshTrackingId
    if session.payment_status ≠ "paid" then
      (.paymentNotCompleted, db)
    else
      let applicationId := session.metadata_loanId
      let upd := updateFirst (fun a => a.id == applicationId)
        (paidApplicationSet trackingId transactionId now) db.applications
      (.success transactionId trackingId upd.1,
       { applications := upd.2
         payments := db.payments ++ [settledPaymentRecord session trackingId now] })

/-- `PATCH /payment-success` from the raw query string: the handler first
rejects a missing `session_id`. -/
def paymentSuccessRoute (db : DB) (sessionId : Option String)
    (retrieve : String → StripeSession) (freshTrackingId : String) (now : Nat) :
    SettleResponse × DB :=
  match sessionId with
  | none => (.missingSessionId, db)
  | some sid => paymentSuccess db (retrieve sid) freshTrackingId now

/-! ## Payment history listing (part_000 lines 619-644) -/

/-- Insert a record into a list sorted by `paidAt` descending. -/
def insertByPaidAtDesc (p : PaymentRecord) : List PaymentRecord → List PaymentRecord
  | [] => [p]
  | q :: qs =>
    if p.paidAt ≤ q.paidAt then q :: insertByPaidAtDesc p qs
    else p :: q :: qs

/-- Mongo's `.sort(\x7b paidAt: -1 \x7d)` on the result set, as an insertion
sort by `paidAt` descending. -/
def sortByPaidAtDesc : List PaymentRecord → List PaymentRecord
  | [] => []
  | p :: ps => insertByPaidAtDesc p (sortByPaidAtDesc ps)

/-- Response body of `GET /payments`. -/
inductive PaymentsResponse where
  | forbidden
  | ok (records : List PaymentRecord)
  deriving Repr, DecidableEq

/-- `GET /payments`: if a (truthy, i.e. non-empty) `email` query parameter
is present it must equal the token's email, else 403; with it, results
are filtered to that customer; without it the whole collection is
returned.  Either way results are sorted by `paidAt` descending. -/
def getPayments (db : DB) (decodedEmail : String) (emailQuery : Option String) :
    PaymentsResponse :=
  match emailQuery with
  | some email =>
    if email = "" then .ok (sortByPaidAtDesc db.payments)
    else if email ≠ decodedEmail then .forbidden
    else .ok (sortByPaidAtDesc (db.payments.filter (fun p => p.customerEmail == email)))
  | none => .ok (sortByPaidAtDesc db.payments)

/-! ## Helper lemmas on the storage primitives -/

theorem updateFirst_of_forall_not (p : α → Bool) (f : α → α) (l : List α)
    (h : ∀ a ∈ l, p a = false) : updateFirst p f l = (0, l) := by
  induction l with
  | nil => rfl
  | cons x xs ih =>
    simp only [updateFirst, h x (List.mem_cons_self x xs)]
    simp [ih fun a ha => h a (List.mem_cons_of_mem x ha)]

theorem deleteFirst_of_forall_not (p : α → Bool) (l : List α)
    (h : ∀ a ∈ l, p a = false) : deleteFirst p l = (0, l) := by
  induction l with
  | nil => rfl
  | cons x xs ih =>
    simp only [deleteFirst, h x (List.mem_cons_self x xs)]
    simp [ih fun a ha => h a (List.mem_cons_of_mem x ha)]

theorem updateFirst_append (p : α → Bool) (f : α → α) (pre post : List α) (a : α)
    (hpre : ∀ b ∈ pre, p b = false) (ha : p a = true) :
    updateFirst p f (pre ++ a :: post) = (1, pre ++ f a :: post) := by
  induction pre with
  | nil => simp [updateFirst, ha]
  | cons x xs ih =>
    simp only [List.cons_append, updateFirst, hpre x (List.mem_cons_self x xs)]
    simp [ih fun b hb => hpre b (List.mem_cons_of_mem x hb)]

theorem find?_append_of_none (p : α → Bool) (l₁ l₂ : List α)
    (h : l₁.find? p = none) : (l₁ ++ l₂).find? p = l₂.find? p := by
  induction l₁ with
  | nil => rfl
  | cons x xs ih =>
    cases hx : p x with
    | false =>
      rw [List.find?_cons_of_neg _ (by simp [hx])] at h
      rw [List.cons_append, List.find?_cons_of_neg _ (by simp [hx])]
      exact ih h
    | true =>
      rw [List.find?_cons_of_pos _ hx] at h
      exact absurd h (by simp)

theorem mem_insertByPaidAtDesc (p q : PaymentRecord) (l : List PaymentRecord) :
    p ∈ insertByPaidAtDesc q l ↔ p = q ∨ p ∈ l := by
  induction l with
  | nil => simp [insertByPaidAtDesc, eq_comm]
  | cons x xs ih =>
    by_cases h : q.paidAt ≤ x.paidAt
    · simp only [insertByPaidAtDesc, if_pos h, List.mem_cons, ih]
      tauto
    · simp only [insertByPaidAtDesc, if_neg h, List.mem_cons]

theorem mem_sortByPaidAtDesc (p : PaymentRecord) (l : List PaymentRecord) :
    p ∈ sortByPaidAtDesc l ↔ p ∈ l := by
  induction l with
  | nil => simp [sortByPaidAtDesc]
  | cons x xs ih =>
    simp only [sortByPaidAtDesc, mem_insertByPaidAtDesc, List.mem_cons, ih]

theorem paymentSuccess_of_found (db : DB) (session : StripeSession) (trk : String)
    (now : Nat) (existing : PaymentRecord)
    (hfound : db.payments.find? (fun p => p.transactionId == session.payment_intent)
      = some existing) :
    paymentSuccess db session trk now =
      (.alreadyProcessed session.payment_intent existing.trackingId, db) := by
  simp only [paymentSuccess, hfound]

theorem paymentSuccess_fresh_paid (db : DB) (session : StripeSession) (trk : String)
    (now : Nat)
    (hfresh : db.payments.find? (fun p => p.transactionId == session.payment_intent)
      = none)
    (hpaid : session.payment_status = "paid") :
    paymentSuccess db session trk now =
      (.success session.payment_intent trk
        (updateFirst (fun a => a.id == session.metadata_loanId)
          (paidApplicationSet trk session.payment_intent now) db.applications).1,
       { applications := (updateFirst (fun a => a.id == session.metadata_loanId)
          (paidApplicationSet trk session.payment_intent now) db.applications).2
         payments := db.payments ++ [settledPaymentRecord session trk now] }) := by
  simp only [paymentSuccess, hfresh, paidApplicationSet]
  simp [hpaid]

/-! ## Concrete fixtures used by witnesses and counterexamples -/

/-- A stored application owned by `a@x.com`. -/
def sampleApp : Application :=
  { id := "app1"
    userEmail := "a@x.com"
    status := "Pending"
    applicationFeeStatus := "Unpaid"
    appliedAt := 0 }

/-- A retrieved Stripe session with status "paid" pointing at `app1`. -/
def sampleSession : StripeSession :=
  { payment_intent := "pi_1"
    payment_status := "paid"
    amount_total := 5000
    currency := "usd"
    customer_email := "a@x.com"
    metadata_loanId := "app1"
    metadata_loanTitle := "Home Loan" }

/-- A ledger record whose payer is `b@x.com`. -/
def crossPayment : PaymentRecord :=
  { applicationId := "app2"
    loanTitle := "Car Loan"
    amount := 50
    currency := "usd"
    customerEmail := "b@x.com"
    transactionId := "pi_9"
    paymentStatus := "paid"
    trackingId := "LL-20250101-ABCDEF"
    paidAt := 5
    createdAt := 5 }

/-- A retrieved Stripe session whose processor-reported status is not
"paid". -/
def unpaidSession : StripeSession :=
  { sampleSession with payment_status := "unpaid" }

/-! ## Claim theorems -/

/-- C7: every Submit creates an Application with status=Pending,
applicationFeeStatus=Unpaid, and appliedAt equal to the call's `now`,
hence inside any window around the call; the document is inserted into the
collection. -/
theorem submit_creates_pending_unpaid (apps : List Application) (body : Application)
    (now tStart tEnd : Nat) (h1 : tStart ≤ now) (h2 : now ≤ tEnd) :
    (postApplications apps body now).1.status = "Pending" ∧
    (postApplications apps body now).1.applicationFeeStatus = "Unpaid" ∧
    tStart ≤ (postApplications apps body now).1.appliedAt ∧
    (postApplications apps body now).1.appliedAt ≤ tEnd ∧
    (postApplications apps body now).2 = apps ++ [(postApplications apps body now).1] :=
  ⟨rfl, rfl, h1, h2, rfl⟩

/-- Witness for C7 at a concrete store, body and window. -/
theorem submit_creates_pending_unpaid_witness :
    (postApplications [] sampleApp 5).1.status = "Pending" ∧
    (postApplications [] sampleApp 5).1.applicationFeeStatus = "Unpaid" ∧
    4 ≤ (postApplications [] sampleApp 5).1.appliedAt ∧
    (postApplications [] sampleApp 5).1.appliedAt ≤ 6 ∧
    (postApplications [] sampleApp 5).2 = [] ++ [(postApplications [] sampleApp 5).1] :=
  submit_creates_pending_unpaid [] sampleApp 5 4 6 (by decide) (by decide)

/-- C2: when the processor-reported status is not "paid" and no
PaymentRecord exists for the transaction reference, SettlePayment answers
with the payment-not-completed error and leaves the store untouched. -/
theorem settle_notPaid_noMutation (db : DB) (session : StripeSession)
    (trk : String) (now : Nat)
    (hfresh : db.payments.find? (fun p => p.transactionId == session.payment_intent)
      = none)
    (hnot : session.payment_status ≠ "paid") :
    paymentSuccess db session trk now = (.paymentNotCompleted, db) := by
  simp only [paymentSuccess, hfresh]
  simp [hnot]

/-- Witness for C2: an unpaid session against a store with one pending
application and an empty ledger. -/
theorem settle_notPaid_noMutation_witness :
    paymentSuccess ⟨[sampleApp], []⟩ unpaidSession "LL-T" 7 =
      (.paymentNotCompleted, ⟨[sampleApp], []⟩) :=
  settle_notPaid_noMutation ⟨[sampleApp], []⟩ unpaidSession "LL-T" 7 rfl (by decide)

/-- C1: SettlePayment is idempotent — after a first settlement of a fresh
paid session, a second call for the same session returns the same
transactionId and trackingId and leaves the whole store (ledger and
applications) exactly as the first call left it. -/
theorem settle_idempotent (db0 : DB) (session : StripeSession)
    (trk trk2 : String) (now now2 : Nat)
    (hfresh : db0.payments.find? (fun p => p.transactionId == session.payment_intent)
      = none)
    (hpaid : session.payment_status = "paid") :
    (paymentSuccess (paymentSuccess db0 session trk now).2 session trk2 now2).1.returnedTransactionId
      = (paymentSuccess db0 session trk now).1.returnedTransactionId ∧
    (paymentSuccess (paymentSuccess db0 session trk now).2 session trk2 now2).1.returnedTrackingId
      = (paymentSuccess db0 session trk now).1.returnedTrackingId ∧
    (paymentSuccess (paymentSuccess db0 session trk now).2 session trk2 now2).2
      = (paymentSuccess db0 session trk now).2 := by
  have h1 := paymentSuccess_fresh_paid db0 session trk now hfresh hpaid
  have hfind : (paymentSuccess db0 session trk now).2.payments.find?
      (fun p => p.transactionId == session.payment_intent)
      = some (settledPaymentRecord session trk now) := by
    rw [h1]
    refine (find?_append_of_none _ _ _ hfresh).trans ?_
    simp [settledPaymentRecord]
  have h2 := paymentSuccess_of_found _ session trk2 now2 _ hfind
  rw [h2, h1]
  exact ⟨rfl, by simp [SettleResponse.returnedTrackingId, settledPaymentRecord], rfl⟩

/-- Witness for C1: a concrete first settlement followed by a second call
for the same session. -/
theorem settle_idempotent_witness :
    (paymentSuccess (paymentSuccess ⟨[sampleApp], []⟩ sampleSession "LL-A" 1).2
        sampleSession "LL-B" 2).1.returnedTransactionId
      = (paymentSuccess ⟨[sampleApp], []⟩ sampleSession "LL-A" 1).1.returnedTransactionId ∧
    (paymentSuccess (paymentSuccess ⟨[sampleApp], []⟩ sampleSession "LL-A" 1).2
        sampleSession "LL-B" 2).1.returnedTrackingId
      = (paymentSuccess ⟨[sampleApp], []⟩ sampleSession "LL-A" 1).1.returnedTrackingId ∧
    (paymentSuccess (paymentSuccess ⟨[sampleApp], []⟩ sampleSession "LL-A" 1).2
        sampleSession "LL-B" 2).2
      = (paymentSuccess ⟨[sampleApp], []⟩ sampleSession "LL-A" 1).2 :=
  settle_idempotent ⟨[sampleApp], []⟩ sampleSession "LL-A" "LL-B" 1 2 rfl rfl

/-- C10: when the processor reports "paid", the transaction reference is
new, and the session's metadata application id matches no stored
Application, SettlePayment still inserts the ledger record and returns a
success response whose application update matched zero documents, with the
applications collection unchanged. -/
theorem settle_orphan_inserts (db : DB) (session : StripeSession) (trk : String)
    (now : Nat)
    (hfresh : db.payments.find? (fun p => p.transactionId == session.payment_intent)
      = none)
    (hpaid : session.payment_status = "paid")
    (hnoapp : ∀ a ∈ db.applications, (a.id == session.metadata_loanId) = false) :
    paymentSuccess db session trk now =
      (.success session.payment_intent trk 0,
       { applications := db.applications
         payments := db.payments ++ [settledPaymentRecord session trk now] }) := by
  rw [paymentSuccess_fresh_paid db session trk now hfresh hpaid,
    updateFirst_of_forall_not _ _ _ hnoapp]

/-- Witness for C10: a paid session whose metadata id `app1` matches no
application in a store holding only an unrelated application `app9`. -/
theorem settle_orphan_inserts_witness :
    paymentSuccess ⟨[{ sampleApp with id := "app9" }], [crossPayment]⟩ sampleSession
        "LL-C" 3 =
      (.success "pi_1" "LL-C" 0,
       { applications := [{ sampleApp with id := "app9" }]
         payments := [crossPayment] ++ [settledPaymentRecord sampleSession "LL-C" 3] }) :=
  settle_orphan_inserts ⟨[{ sampleApp with id := "app9" }], [crossPayment]⟩
    sampleSession "LL-C" 3 (by decide) rfl
    (by intro a ha; simp only [List.mem_singleton] at ha; subst ha; decide)

/-- C3 counterexample: 50.75 = 5075/100 has two decimal places and is
nonnegative, yet the code's conversion (`parseInt(loanAmount) * 100`, then
`amount_total / 100` at settlement) yields 50, not 50.75: `parseInt`
truncates the fractional part before the multiplication. -/
theorem amount_roundtrip_counterexample :
    0 ≤ (203 / 4 : ℚ) ∧ (203 / 4 : ℚ) = ((5075 : ℤ) : ℚ) / 100 ∧
    settleMajorUnits (checkoutMinorUnits (203 / 4)) ≠ (203 / 4 : ℚ) := by
  refine ⟨by norm_num, by norm_num, ?_⟩
  have hfl : ⌊(203 / 4 : ℚ)⌋ = 50 := by
    rw [Int.floor_eq_iff]
    norm_num
  rw [checkoutMinorUnits, jsParseIntTrunc, if_pos (by norm_num), hfl,
    settleMajorUnits]
  norm_num

/-- C3 amended: the conversion round-trips exactly when the submitted
amount is integer-valued (zero decimal places); `parseInt` is then the
identity and ×100 / ÷100 cancel. -/
theorem amount_roundtrip_integer (q : ℚ) (n : ℤ) (hq : q = (n : ℚ)) :
    settleMajorUnits (checkoutMinorUnits q) = q := by
  subst hq
  have htr : jsParseIntTrunc ((n : ℚ)) = n := by
    rw [jsParseIntTrunc]
    by_cases h : (0 : ℚ) ≤ (n : ℚ)
    · rw [if_pos h, Int.floor_intCast]
    · rw [if_neg h, show (-(n : ℚ)) = (((-n : ℤ)) : ℚ) by push_cast; ring,
        Int.floor_intCast, neg_neg]
  rw [checkoutMinorUnits, htr, settleMajorUnits]
  push_cast
  ring_nf

/-- Witness for the amended C3 at the integer amount 50. -/
theorem amount_roundtrip_integer_witness :
    settleMajorUnits (checkoutMinorUnits 50) = (50 : ℚ) :=
  amount_roundtrip_integer 50 50 (by norm_num)

/-- C4 counterexample: in the main server the Cancel route is a hard
`deleteOne` — cancelling the stored application `app1` removes the record
entirely (the collection becomes empty) instead of mutating its status to
Cancelled, and reports deletedCount 1 with a success status. -/
theorem cancel_delete_counterexample :
    (cancelApplicationDelete "a@x.com" [sampleApp] "app1").2 = [] ∧
    (cancelApplicationDelete "a@x.com" [sampleApp] "app1").1 = .ok ⟨1⟩ := by
  constructor <;> rfl

/-- C4 amended: only the PATCH variant of Cancel (zzzzz.jsx) mutates the
stored Application to status=Cancelled with cancelledAt=now and preserves
the record in place; the main server's DELETE variant hard-deletes it. -/
theorem cancel_update_sets_cancelled (e : String) (pre post : List Application)
    (a : Application) (id : String) (now : Nat)
    (ha : (a.id == id) = true) (hpre : ∀ b ∈ pre, (b.id == id) = false) :
    cancelApplicationUpdate e (pre ++ a :: post) id now =
      (.ok ⟨1⟩,
       pre ++ { a with status := "Cancelled", cancelledAt := some now } :: post) := by
  simp only [cancelApplicationUpdate]
  rw [updateFirst_append _ _ _ _ _ hpre ha]

/-- Witness for the amended C4: cancelling `app1` in a one-element store
via the PATCH variant. -/
theorem cancel_update_sets_cancelled_witness :
    cancelApplicationUpdate "a@x.com" ([] ++ sampleApp :: []) "app1" 9 =
      (.ok ⟨1⟩,
       [] ++ { sampleApp with status := "Cancelled", cancelledAt := some 9 } :: []) :=
  cancel_update_sets_cancelled "a@x.com" [] [] sampleApp "app1" 9 rfl
    (by intro b hb; exact absurd hb (List.not_mem_nil b))

/-- C5 counterexample: `mallory@x.com` is not the owner of `app1`
(owned by `a@x.com`), yet Cancel succeeds with a 200 response and deletes
the application — no ForbiddenError, Application not unchanged. -/
theorem cancel_nonOwner_counterexample :
    sampleApp.userEmail ≠ "mallory@x.com" ∧
    cancelApplicationDelete "mallory@x.com" [sampleApp] "app1" = (.ok ⟨1⟩, []) := by
  exact ⟨by decide, rfl⟩

/-- C5 amended: neither Cancel variant consults the acting principal at
all — the outcome is identical for any two callers and the response is
always a success body (never a 403), so any authenticated principal can
cancel any application. -/
theorem cancel_ignores_principal (e e2 : String) (apps : List Application)
    (id : String) (now : Nat) :
    cancelApplicationDelete e apps id = cancelApplicationDelete e2 apps id ∧
    cancelApplicationUpdate e apps id now = cancelApplicationUpdate e2 apps id now ∧
    (cancelApplicationDelete e apps id).1 =
      .ok ⟨(deleteFirst (fun a => a.id == id) apps).1⟩ :=
  ⟨rfl, rfl, rfl⟩

/-- C6 counterexample: with no email filter, `GET /payments` returns the
whole ledger — the caller `a@x.com` receives `crossPayment`, whose payer
is `b@x.com`, so the operation does perform cross-user listing. -/
theorem listPayments_crossUser_counterexample :
    getPayments ⟨[], [crossPayment]⟩ "a@x.com" none = .ok [crossPayment] ∧
    crossPayment.customerEmail ≠ "a@x.com" := by
  exact ⟨rfl, by decide⟩

/-- C6 amended: a non-empty filterEmail differing from the caller's
verified identity is rejected with 403; when the filter-path answers
successfully every returned record's payer equals the filter email; but
with no filter the handler returns the entire sorted ledger, across all
users. -/
theorem listPayments_access (db : DB) (caller e : String) (l : List PaymentRecord)
    (p : PaymentRecord) (he : e ≠ "") :
    (e ≠ caller → getPayments db caller (some e) = .forbidden) ∧
    (getPayments db caller (some e) = .ok l → p ∈ l → p.customerEmail = e) ∧
    getPayments db caller none = .ok (sortByPaidAtDesc db.payments) := by
  refine ⟨?_, ?_, rfl⟩
  · intro hne
    simp only [getPayments, if_neg he, if_pos hne]
  · intro hok hp
    by_cases hec : e = caller
    · subst hec
      simp only [getPayments, if_neg he] at hok
      rw [if_neg fun h => h rfl] at hok
      injection hok with hok
      subst hok
      rw [mem_sortByPaidAtDesc] at hp
      exact eq_of_beq (List.mem_filter.mp hp).2
    · simp only [getPayments, if_neg he, if_pos hec] at hok
      simp at hok

/-- Witness for the amended C6: caller `a@x.com`, filter `b@x.com`, one
foreign ledger record. -/
theorem listPayments_access_witness :
    getPayments ⟨[], [crossPayment]⟩ "a@x.com" (some "b@x.com") = .forbidden :=
  (listPayments_access ⟨[], [crossPayment]⟩ "a@x.com" "b@x.com" [] crossPayment
    (by decide)).1 (by decide)

/-- C8 counterexample: on an id matching no stored Application, Approve,
Reject and Cancel each answer with a 200 success body carrying a zero
matched/deleted count — none fails with a NotFoundError. -/
theorem missing_id_counterexample :
    approveApplication [] "64a0" 0 = (.ok ⟨0⟩, []) ∧
    rejectApplication [] "64a0" 0 = (.ok ⟨0⟩, []) ∧
    cancelApplicationDelete "a@x.com" [] "64a0" = (.ok ⟨0⟩, []) :=
  ⟨rfl, rfl, rfl⟩

/-- C8 amended: when the id resolves to no stored Application, each of
Approve, Reject and Cancel mutates nothing and returns a success response
whose matched/deleted count is 0 (the raw driver result, no 404). -/
theorem missing_id_zero_matched (e : String) (apps : List Application)
    (id : String) (now : Nat)
    (h : ∀ a ∈ apps, (a.id == id) = false) :
    approveApplication apps id now = (.ok ⟨0⟩, apps) ∧
    rejectApplication apps id now = (.ok ⟨0⟩, apps) ∧
    cancelApplicationDelete e apps id = (.ok ⟨0⟩, apps) := by
  refine ⟨?_, ?_, ?_⟩ <;>
    simp only [approveApplication, rejectApplication, cancelApplicationDelete,
      updateFirst_of_forall_not _ _ _ h, deleteFirst_of_forall_not _ _ h]

/-- Witness for the amended C8 on a nonempty store and an unresolvable
id. -/
theorem missing_id_zero_matched_witness :
    approveApplication [sampleApp] "nope" 0 = (.ok ⟨0⟩, [sampleApp]) ∧
    rejectApplication [sampleApp] "nope" 0 = (.ok ⟨0⟩, [sampleApp]) ∧
    cancelApplicationDelete "a@x.com" [sampleApp] "nope" = (.ok ⟨0⟩, [sampleApp]) :=
  missing_id_zero_matched "a@x.com" [sampleApp] "nope" 0
    (by intro a ha; simp only [List.mem_singleton] at ha; subst ha; decide)

/-- C9 counterexample: the amount −5 is not a positive number, yet the
checkout handler performs no validation — it builds and forwards a
processor session request with unit_amount −500 instead of failing with a
ValidationError. -/
theorem checkout_no_validation_counterexample :
    ¬ (0 < (-5 : ℚ)) ∧
    paymentCheckoutSystem "L1" "Home Loan" (-5) "a@x.com" ≠
      CheckoutResult.validationError ∧
    paymentCheckoutSystem "L1" "Home Loan" (-5) "a@x.com" =
      CheckoutResult.sessionRequest
        { currency := "usd"
          unit_amount := -500
          productName := "Loan Application Fee - Home Loan"
          customer_email := "a@x.com"
          metadata_loanId := "L1"
          metadata_userEmail := "a@x.com"
          metadata_loanTitle := "Home Loan" } := by
  have hamt : checkoutMinorUnits (-5 : ℚ) = -500 := by
    rw [checkoutMinorUnits, jsParseIntTrunc, if_neg (by norm_num),
      show (-(-5 : ℚ)) = (((5 : ℤ)) : ℚ) by norm_num, Int.floor_intCast]
    norm_num
  have heq : paymentCheckoutSystem "L1" "Home Loan" (-5) "a@x.com" =
      CheckoutResult.sessionRequest
        { currency := "usd"
          unit_amount := -500
          productName := "Loan Application Fee - Home Loan"
          customer_email := "a@x.com"
          metadata_loanId := "L1"
          metadata_userEmail := "a@x.com"
          metadata_loanTitle := "Home Loan" } := by
    simp only [paymentCheckoutSystem, hamt]
    rfl
  refine ⟨by norm_num, ?_, heq⟩
  rw [heq]
  simp

/-- C9 amended: CreateCheckoutSession validates nothing locally — for
every input, including non-positive amounts, it forwards a session request
with unit_amount = parseInt(amount)·100 to the processor and never
returns a ValidationError. -/
theorem checkout_always_forwards (loanId loanTitle : String) (loanAmount : ℚ)
    (userEmail : String) :
    paymentCheckoutSystem loanId loanTitle loanAmount userEmail =
      CheckoutResult.sessionRequest
        { currency := "usd"
          unit_amount := checkoutMinorUnits loanAmount
          productName := "Loan Application Fee - " ++ loanTitle
          customer_email := userEmail
          metadata_loanId := loanId
          metadata_userEmail := userEmail
          metadata_loanTitle := loanTitle } :=
  rfl

end LoanLink
